import Mathlib

/-!
Formal model of the media-cached timeline compositor
(`src/lib/services/diffusion-studio.ts`, `src/lib/services/storage-service.ts`)
as a shallow embedding in Lean.  Times are integer milliseconds (`Nat`),
media bytes are `List Nat`, and the effects of the original async code
(network fetches, IndexedDB transactions, clip insertions into the rendering
engine) are made explicit: fetch outcomes are an oracle `String → Bool` or
`String → Option (List Nat)`, the media cache and the history store are
association lists, and a composition is the list of inserted clips.
-/

/-! ## String utilities

The original code uses the JavaScript string methods `toLowerCase`,
`endsWith` and `includes` on URLs (ASCII strings).  They are modelled
character-by-character over `String.data`.
-/

/-- ASCII lower-casing of one character, as JavaScript `toLowerCase`
behaves on the ASCII range (the only characters appearing in the URLs
this code handles). -/
def lowerChar (c : Char) : Char :=
  if 65 ≤ c.toNat ∧ c.toNat ≤ 90 then Char.ofNat (c.toNat + 32) else c

/-- Models JavaScript `s.toLowerCase()` for ASCII strings. -/
def lowerStr (s : String) : String :=
  ⟨s.data.map lowerChar⟩

/-- Models JavaScript `s.endsWith(suf)`: the character list of `suf`
is a suffix of the character list of `s`. -/
def strEndsWith (s suf : String) : Bool :=
  decide (suf.data.length ≤ s.data.length) &&
    s.data.drop (s.data.length - suf.data.length) == suf.data

/-- Does `pat` occur at the head of `l`? -/
def listStartsWith (l pat : List Char) : Bool :=
  match pat, l with
  | [], _ => true
  | _ :: _, [] => false
  | p :: ps, c :: cs => p == c && listStartsWith cs ps

/-- Does `pat` occur anywhere in `l`? -/
def occursIn (pat : List Char) : List Char → Bool
  | [] => pat.isEmpty
  | c :: cs => listStartsWith (c :: cs) pat || occursIn pat cs

/-- Models JavaScript `s.includes(pat)`. -/
def strIncludes (s pat : String) : Bool :=
  occursIn pat.data s.data

/-! ## Time model

`DiffusionStudioService` fixes `frameRate = 30` and converts with
`Math.round((ms / 1000) * frameRate)` and `Math.round((frames / frameRate) * 1000)`.
For a non-negative rational `a / b`, JavaScript `Math.round (a / b)` equals
`⌊a / b + 1 / 2⌋ = (2 * a + b) / (2 * b)` in integer division, which is how the
two conversions are written below (inputs are non-negative integers). -/

/-- The fixed frame rate of the compositor (`private frameRate: number = 30`). -/
def frameRate : Nat := 30

/-- `msToFrames(ms) = Math.round((ms / 1000) * frameRate)`. -/
def msToFrames (ms : Nat) : Nat :=
  (2 * (ms * frameRate) + 1000) / (2 * 1000)

/-- `framesToMs(frames) = Math.round((frames / frameRate) * 1000)`. -/
def framesToMs (frames : Nat) : Nat :=
  (2 * (frames * 1000) + frameRate) / (2 * frameRate)

/-! ## Data model (`src/lib/types/video.ts`) -/

/-- A single timed visual insertion within a section. -/
structure VideoPoint where
  text : String
  videoId : String
  videoUrl : String
  videoThumbnail : String
  startTime : Nat
  endTime : Nat
deriving Repr, DecidableEq

/-- A narration unit: one audio track and an ordered list of points.
`audioUrl := none` models an absent / empty `audioUrl` (the code guards
with `if (section.audioUrl)`). -/
structure VideoSection where
  sectionId : String
  points : List VideoPoint
  audioUrl : Option String
  voiceOverId : String
deriving Repr, DecidableEq

/-- The timeline handed to the compositor. -/
structure VideoData where
  success : Bool
  data : List VideoSection
deriving Repr, DecidableEq

/-! ## Format policy (`diffusion-studio.ts`) -/

/-- The fixed allow-list of video container extensions. -/
def videoFormats : List String := [".mp4", ".webm"]

/-- `isSupportedVideoFormat(url)`:
`supportedFormats.some(format => url.toLowerCase().endsWith(format))` —
the check runs on the WHOLE lower-cased URL string, query included. -/
def isSupportedVideoFormat (url : String) : Bool :=
  videoFormats.any (fun format => strEndsWith (lowerStr url) format)

/-- Modelled from the spec: `classifyVideo(url)` is supported iff the path,
ignoring query parameters (the part of the URL before the first question
mark), ends with one of the allow-listed container extensions.  This is the
spec-side reading of the video format policy, kept separate so that it can
be compared with `isSupportedVideoFormat` taken from the source. -/
def classifyVideoSpec (url : String) : Bool :=
  let path : String := ⟨url.data.takeWhile (fun c => c ≠ '?')⟩
  videoFormats.any (fun format => strEndsWith (lowerStr path) format)

/-- The fixed allow-list of audio extensions. -/
def audioFormats : List String := [".mp3", ".wav", ".m4a", ".ogg", ".aac"]

/-- Models `new URL(url).pathname` of the browser URL constructor, for the
absolute `scheme://authority/path?query` URLs this repository handles:
`none` models the constructor throwing (no `://` scheme separator);
otherwise the pathname runs from the first slash after the authority up to
the first question mark or hash, defaulting to the root slash. -/
def urlPathname (url : String) : Option String :=
  match dropToSchemeEnd url.data with
  | none => none
  | some rest =>
    let path := (rest.dropWhile (fun c => c ≠ '/')).takeWhile (fun c => c ≠ '?' ∧ c ≠ '#')
    some (if path.isEmpty then "/" else ⟨path⟩)
where
  /-- The characters after the first occurrence of `://`, if any. -/
  dropToSchemeEnd : List Char → Option (List Char)
    | [] => none
    | c :: cs =>
      if listStartsWith (c :: cs) [':', '/', '/'] then some ((c :: cs).drop 3)
      else dropToSchemeEnd cs

/-- The substring fallback of the audio policy: any allow-listed audio
extension token appearing anywhere in the full URL string. -/
def audioSubstringFallback (url : String) : Bool :=
  strIncludes url ".mp3" || strIncludes url ".wav" || strIncludes url ".m4a" ||
    strIncludes url ".ogg" || strIncludes url ".aac"

/-- `isSupportedAudioFormat(url)`: (a) a content-type query hint naming
audio, else (b) the URL pathname ends with an allow-listed audio extension,
else (c) the substring fallback; if URL parsing throws, only the substring
fallback runs. -/
def isSupportedAudioFormat (url : String) : Bool :=
  if strIncludes url "response-content-type=audio" || strIncludes url "content-type=audio" then
    true
  else
    match urlPathname url with
    | some pathname =>
      if audioFormats.any (fun format => strEndsWith (lowerStr pathname) format) then true
      else if audioSubstringFallback url then true
      else false
    | none => audioSubstringFallback url

/-! ## Persistent media cache and cache-aside resolver
(`storage-service.ts` media store, `diffusion-studio.ts` `fetchMediaWithCache`) -/

/-- The declared kind of a media asset. -/
inductive MediaKind where
  | audio
  | video
  | image
deriving Repr, DecidableEq

/-- One record of the media store, keyed by the source URL
(`keyPath: 'url'`, put overwrites). -/
structure MediaRecord where
  url : String
  data : List Nat
  kind : MediaKind
  timestamp : Nat
deriving Repr, DecidableEq

/-- The media store: at most one record per URL, modelled as an
association list looked up by URL. -/
def MediaStore := List MediaRecord

/-- `getMedia(url)`: the cached bytes for `url`, or `none` on a miss. -/
def getMedia (store : MediaStore) (url : String) : Option (List Nat) :=
  (store.find? (fun r => r.url == url)).map (fun r => r.data)

/-- `storeMedia(url, data, type)`: an IndexedDB `put` keyed by `url` —
it overwrites any record with the same key. -/
def storeMedia (store : MediaStore) (url : String) (data : List Nat)
    (kind : MediaKind) (now : Nat) : MediaStore :=
  { url := url, data := data, kind := kind, timestamp := now } ::
    store.filter (fun r => ¬ r.url == url)

/-- The outside world seen by one resolution: `net url` is the byte
payload a network fetch of `url` returns, `none` modelling a non-success
status or transport error; `now` is the clock used for cache timestamps. -/
structure FetchWorld where
  net : String → Option (List Nat)
  now : Nat

/-- The outcome of `fetchMediaWithCache`: the resolved bytes or the
propagated error, the media store afterwards, and how many underlying
network fetches were performed. -/
structure FetchOutcome where
  result : Except String (List Nat)
  store : MediaStore
  fetches : Nat

/-- `fetchMediaWithCache(url, type)`: look up `url` in the media store;
on a hit return the cached bytes with no network access; on a miss fetch
from the network, store the bytes keyed by the ORIGINAL url, and return
them; a failed fetch propagates the error and writes nothing. -/
def fetchMediaWithCache (world : FetchWorld) (store : MediaStore)
    (url : String) (kind : MediaKind) : FetchOutcome :=
  match getMedia store url with
  | some cachedData => { result := .ok cachedData, store := store, fetches := 0 }
  | none =>
    match world.net url with
    | some buffer =>
      { result := .ok buffer
        store := storeMedia store url buffer kind world.now
        fetches := 1 }
    | none => { result := .error "Failed to fetch", store := store, fetches := 1 }

/-! ## Timeline compositor (`diffusion-studio.ts`) -/

/-- One clip insertion issued against the rendering engine: the media
source, the frame offset within the timeline, and (for visual clips) the
trimmed length in frames. -/
inductive Clip where
  | audioClip (url : String) (offsetFrames : Nat)
  | videoClip (url : String) (offsetFrames : Nat) (durationFrames : Nat)
  | imageClip (url : String) (offsetFrames : Nat) (durationFrames : Nat)
deriving Repr, DecidableEq

/-- The environment a composition runs in: `fetchOk url` says whether the
cache-aside resolution of `url` (fetch, source and clip creation) succeeds,
and `storeOk` whether the history-store write transaction commits. -/
structure ComposeEnv where
  fetchOk : String → Bool
  storeOk : Bool

/-- `addPlaceholder(point)`: frames are converted INDEPENDENTLY for the
start and the end of the point; on thumbnail resolution failure the error
is caught and nothing is inserted. -/
def addPlaceholder (env : ComposeEnv) (point : VideoPoint) : List Clip :=
  let startFrame := msToFrames point.startTime
  let endFrame := msToFrames point.endTime
  if env.fetchOk point.videoThumbnail then
    [Clip.imageClip point.videoThumbnail startFrame (endFrame - startFrame)]
  else []

/-- `addVideoPoint(point)`: the clip duration is the point duration in
milliseconds converted ONCE (`msToFrames(endTime - startTime)`); an
unsupported format or a failed resolution falls back to the placeholder. -/
def addVideoPoint (env : ComposeEnv) (point : VideoPoint) : List Clip :=
  let durationMs := point.endTime - point.startTime
  let durationFrames := msToFrames durationMs
  let startFrame := msToFrames point.startTime
  if ¬ isSupportedVideoFormat point.videoUrl then
    addPlaceholder env point
  else if env.fetchOk point.videoUrl then
    [Clip.videoClip point.videoUrl startFrame durationFrames]
  else
    addPlaceholder env point

/-- The audio insertions of `processSection`: the section start time is
initialised to 0 and only overwritten when the section has points; audio is
skipped (errors caught, nothing inserted) when the URL is absent, the
format unsupported, or resolution fails. -/
def sectionAudioClips (env : ComposeEnv) (sect : VideoSection) : List Clip :=
  let sectionStartTime :=
    match sect.points with
    | [] => 0
    | point :: _ => point.startTime
  match sect.audioUrl with
  | none => []
  | some url =>
    if ¬ isSupportedAudioFormat url then []
    else if env.fetchOk url then [Clip.audioClip url (msToFrames sectionStartTime)]
    else []

/-- `processSection(section)`: the audio clip of the section, then every
point in array order. -/
def processSection (env : ComposeEnv) (sect : VideoSection) : List Clip :=
  sectionAudioClips env sect ++
    (sect.points.map (addVideoPoint env)).flatten

/-- `storeVideoData` as seen from `processVideoData`: the write either
commits and resolves with the generated id, or rejects. -/
def storeVideoDataResult (env : ComposeEnv) (freshId : String) :
    Except String String :=
  if env.storeOk then .ok freshId else .error "Failed to store video"

/-- `processVideoData(videoData, title)`: reject invalid data before any
insertion; then, when a title is given, attempt the history write with the
rejection CAUGHT (processing continues either way); then process every
section in order. -/
def processVideoData (env : ComposeEnv) (videoData : VideoData)
    (title : Option String) (freshId : String) : Except String (List Clip) :=
  if ¬ videoData.success ∨ videoData.data.isEmpty then
    .error "Invalid video data"
  else
    let _stored : Except String Unit :=
      match title with
      | some _ =>
        match storeVideoDataResult env freshId with
        | .ok _ => .ok ()
        | .error _ => .ok ()
      | none => .ok ()
    .ok ((videoData.data.map (processSection env)).flatten)

/-! ## Persistent video history store (`storage-service.ts` video store) -/

/-- A current-shape history record, keyed by the collision-resistant
string `uniqueId`. -/
structure HistoryRecord where
  uniqueId : String
  videoData : VideoData
  title : String
  timestamp : Nat
  thumbnail : String
deriving Repr, DecidableEq

/-- `extractThumbnail(videoData)`: the thumbnail of the first point of the
FIRST section when that section has points, else the empty string — the
guard only ever inspects `videoData.data[0]`. -/
def extractThumbnail (videoData : VideoData) : String :=
  match videoData.data with
  | sect :: _ =>
    match sect.points with
    | point :: _ => point.videoThumbnail
    | [] => ""
  | [] => ""

/-- `storeVideoData(videoData, title)`: the record written to the video
store; `freshId` models the generated `video_${Date.now()}_${random}` key
and `now` the `Date.now()` timestamp. -/
def storeVideoData (freshId : String) (now : Nat) (videoData : VideoData)
    (title : String) : HistoryRecord :=
  { uniqueId := freshId
    videoData := videoData
    title := title
    timestamp := now
    thumbnail := extractThumbnail videoData }

/-- A record as it sits in the video store: either the legacy shape keyed
by a reused auto-incrementing integer `id` (whose `title`, `timestamp` and
`thumbnail` fields may be missing), or the current shape. -/
inductive StoredVideo where
  | legacy (id : Nat) (videoData : VideoData) (title : Option String)
      (timestamp : Option Nat) (thumbnail : Option String)
  | current (record : HistoryRecord)
deriving Repr, DecidableEq

/-- The legacy integer key of a stored record, when it has one. -/
def StoredVideo.legacyKey : StoredVideo → Option Nat
  | .legacy id _ _ _ _ => some id
  | .current _ => none

/-- The upgrade `getAllVideos` applies to one legacy record: a new unique
id, `title || 'Untitled Video'`, `timestamp || Date.now()`,
`thumbnail || ''`. -/
def upgradeLegacy (freshId : String) (now : Nat) (videoData : VideoData)
    (title : Option String) (timestamp : Option Nat)
    (thumbnail : Option String) : HistoryRecord :=
  { uniqueId := freshId
    videoData := videoData
    title := title.getD "Untitled Video"
    timestamp := timestamp.getD now
    thumbnail := thumbnail.getD "" }

/-- The cursor walk of `getAllVideos` over the store (the store list is
taken in cursor order).  `fresh k` is the unique id generated for the k-th
legacy record encountered, `now` the clock.  Returns the array the call
resolves with and the store after the call.  For a legacy record the code
schedules a migration in a 100 ms timeout — `updateStore.delete(cursor.key)`
followed, on delete success, by `updateStore.add` of the upgraded record —
but the cursor was opened on the TIMESTAMP INDEX, so `cursor.key` is the
index key, and by the time the timeout fires iteration has exhausted the
cursor and `cursor.key` is undefined: the delete throws, the surrounding
catch swallows the error, and the add never runs.  No migration write ever
commits, so the store after the call is the store it started with, legacy
record included. -/
def getAllVideosGo (fresh : Nat → String) (now : Nat) (k : Nat) :
    List StoredVideo → List HistoryRecord × List StoredVideo
  | [] => ([], [])
  | .current record :: rest =>
    let (result, store) := getAllVideosGo fresh now k rest
    (record :: result, .current record :: store)
  | .legacy id videoData title timestamp thumbnail :: rest =>
    let upgraded := upgradeLegacy (fresh k) now videoData title timestamp thumbnail
    let (result, store) := getAllVideosGo fresh now (k + 1) rest
    (upgraded :: result, .legacy id videoData title timestamp thumbnail :: store)

/-- `getAllVideos()`: the returned array and the store after the call
(unchanged, since the scheduled migration writes never commit). -/
def getAllVideos (fresh : Nat → String) (now : Nat)
    (store : List StoredVideo) : List HistoryRecord × List StoredVideo :=
  getAllVideosGo fresh now 0 store

/-! ## Concrete inputs used by witnesses and counterexamples -/

/-- An environment where every resolution succeeds and the history write
commits. -/
def envAllOk : ComposeEnv := { fetchOk := fun _ => true, storeOk := true }

/-- A point of 17 ms whose start and end round to the same frame. -/
def pointShort : VideoPoint :=
  { text := "t", videoId := "p1", videoUrl := "http://h/v.mp4"
    videoThumbnail := "http://h/t.jpg", startTime := 17, endTime := 34 }

/-- The worked example point of the spec: 0 ms to 5000 ms, a supported
video URL. -/
def pointFive : VideoPoint :=
  { text := "t", videoId := "p2", videoUrl := "http://h/v.mp4"
    videoThumbnail := "http://h/t.jpg", startTime := 0, endTime := 5000 }

/-- A point whose video URL ends in `.mov` (unsupported). -/
def pointMov : VideoPoint :=
  { text := "t", videoId := "p3", videoUrl := "http://h/v.mov"
    videoThumbnail := "http://h/t.jpg", startTime := 0, endTime := 5000 }

/-- A section with one point and no audio. -/
def sectionOnePoint : VideoSection :=
  { sectionId := "s1", points := [pointFive], audioUrl := none
    voiceOverId := "OA001" }

/-- A section with audio but no points. -/
def sectionNoPoints : VideoSection :=
  { sectionId := "s2", points := [], audioUrl := some "http://h/a.mp3"
    voiceOverId := "OA001" }

/-- A timeline whose second section has no points: the first section ends
at 5000 ms. -/
def timelineTwoSections : VideoData :=
  { success := true, data := [sectionOnePoint, sectionNoPoints] }

/-- A timeline with the success flag cleared. -/
def timelineFailed : VideoData :=
  { success := false, data := [sectionOnePoint] }

/-- A timeline whose FIRST section has no points while the SECOND one
does (its first thumbnail is the URL ending in `t.jpg`). -/
def timelineLateThumb : VideoData :=
  { success := true
    data := [{ sectionId := "s0", points := [], audioUrl := none
               voiceOverId := "OA001" },
             sectionOnePoint] }

/-- A history store holding one legacy record keyed by the reused
integer 7. -/
def storeWithLegacy : List StoredVideo :=
  [.legacy 7 timelineTwoSections (some "Old") none none]

/-- A supply of generated unique ids for the migration. -/
def freshIds : Nat → String := fun k => "video_new_" ++ toString k

/-! ## Theorems

Sanity checks of the embedding on small inputs, then one theorem per
claim (with witnesses and counterexamples). -/

example : msToFrames 5000 = 150 := by decide
example : msToFrames 0 = 0 := by decide
example : framesToMs 150 = 5000 := by decide
example : isSupportedVideoFormat "http://h/v.mp4" = true := by decide
example : isSupportedVideoFormat "http://h/V.MP4" = true := by decide
example : isSupportedVideoFormat "http://h/v.mov" = false := by decide
example : isSupportedVideoFormat "http://h/v.mp4?sig=abc" = false := by decide
example : classifyVideoSpec "http://h/v.mp4?sig=abc" = true := by decide
example : isSupportedAudioFormat "http://h/a.mp3" = true := by decide
example : isSupportedAudioFormat "http://h/a.flac" = false := by decide
example : urlPathname "http://h/a.mp3?x=1" = some "/a.mp3" := by decide
example : urlPathname "a.mp3" = none := by decide

/-- Claim C1: for every non-negative integer frame index f at the fixed
frame rate 30, converting f to milliseconds with framesToMs and back with
msToFrames returns f exactly. -/
theorem msToFrames_framesToMs (f : Nat) : msToFrames (framesToMs f) = f := by
  unfold msToFrames framesToMs frameRate
  omega

/-- Claim C2, counterexample: for the point from 17 ms to 34 ms the code
inserts a video clip of 1 frame (`msToFrames(endTime - startTime)`), while
the difference of the two independently rounded frame positions
(`msToFrames(endTime) - msToFrames(startTime)`) is 0, so the inserted
duration is NOT that difference. -/
theorem addVideoPoint_duration_counterexample :
    addVideoPoint envAllOk pointShort =
      [Clip.videoClip "http://h/v.mp4" 1 1] ∧
    msToFrames pointShort.endTime - msToFrames pointShort.startTime = 0 ∧
    (1 : Nat) ≠ 0 := by
  refine ⟨by decide, by decide, by decide⟩

/-- Claim C2 as amended: for every point whose video URL is supported and
resolves, exactly one video clip is inserted, positioned at
`msToFrames(startTime)` and trimmed to `msToFrames(endTime - startTime)`
frames — the millisecond duration converted once, not the difference of
the two independently rounded frame positions. -/
theorem addVideoPoint_video (env : ComposeEnv) (point : VideoPoint)
    (hs : isSupportedVideoFormat point.videoUrl = true)
    (hf : env.fetchOk point.videoUrl = true) :
    addVideoPoint env point =
      [Clip.videoClip point.videoUrl (msToFrames point.startTime)
        (msToFrames (point.endTime - point.startTime))] := by
  simp [addVideoPoint, hs, hf]

/-- Witness for `addVideoPoint_video` at the worked example point of the
spec: 0 ms to 5000 ms at 30 fps gives one clip at frame 0 trimmed to 150
frames. -/
theorem addVideoPoint_video_witness :
    isSupportedVideoFormat pointFive.videoUrl = true ∧
    envAllOk.fetchOk pointFive.videoUrl = true ∧
    addVideoPoint envAllOk pointFive =
      [Clip.videoClip pointFive.videoUrl (msToFrames pointFive.startTime)
        (msToFrames (pointFive.endTime - pointFive.startTime))] :=
  ⟨by decide, by decide, addVideoPoint_video envAllOk pointFive (by decide) (by decide)⟩

/-- Claim C3, counterexample: a URL whose path ends in `.mp4` but which
carries a query is classified as supported by the spec-side path rule and
as UNSUPPORTED by the code, which tests the suffix of the whole URL
string. -/
theorem isSupportedVideoFormat_counterexample :
    classifyVideoSpec "http://h/v.mp4?sig=abc" = true ∧
    isSupportedVideoFormat "http://h/v.mp4?sig=abc" = false := by
  refine ⟨by decide, by decide⟩

/-- Claim C3 as amended: a URL is classified as supported iff the WHOLE
lower-cased URL string (query included) ends with `.mp4` or `.webm`; on
URLs without a question mark this agrees with the spec-side
query-stripping rule. -/
theorem isSupportedVideoFormat_spec (url : String) :
    (isSupportedVideoFormat url =
      (strEndsWith (lowerStr url) ".mp4" || strEndsWith (lowerStr url) ".webm")) ∧
    ('?' ∉ url.data → classifyVideoSpec url = isSupportedVideoFormat url) := by
  constructor
  · simp [isSupportedVideoFormat, videoFormats, List.any]
  · intro h
    have htake : url.data.takeWhile (fun c => c ≠ '?') = url.data := by
      rw [List.takeWhile_eq_self_iff]
      intro c hc
      simp only [ne_eq, decide_eq_true_eq]
      intro hcq
      exact h (hcq ▸ hc)
    cases url with
    | mk data =>
      simp only [classifyVideoSpec, isSupportedVideoFormat]
      rw [htake]

/-- Witness for `isSupportedVideoFormat_spec` at a query-free URL: the
code and the spec-side rule agree on it. -/
theorem isSupportedVideoFormat_spec_witness :
    '?' ∉ "http://h/v.mp4".data ∧
    classifyVideoSpec "http://h/v.mp4" = isSupportedVideoFormat "http://h/v.mp4" :=
  ⟨by decide, (isSupportedVideoFormat_spec "http://h/v.mp4").2 (by decide)⟩

/-- Claim C4: for every point whose video URL is unsupported or whose
video bytes fail to resolve, exactly one placeholder image insertion is
made at the frame position of the point with the spec-defined duration in
frames (`msToFrames(endTime) - msToFrames(startTime)`), and if the
thumbnail also fails to resolve the point is skipped entirely (no
insertion). -/
theorem addVideoPoint_fallback (env : ComposeEnv) (point : VideoPoint)
    (h : isSupportedVideoFormat point.videoUrl = false ∨
         env.fetchOk point.videoUrl = false) :
    (env.fetchOk point.videoThumbnail = true →
      addVideoPoint env point =
        [Clip.imageClip point.videoThumbnail (msToFrames point.startTime)
          (msToFrames point.endTime - msToFrames point.startTime)]) ∧
    (env.fetchOk point.videoThumbnail = false →
      addVideoPoint env point = []) := by
  constructor <;> intro hthumb <;>
    rcases h with h | h <;>
      simp [addVideoPoint, addPlaceholder, h, hthumb]

/-- Witness for `addVideoPoint_fallback`: a video URL ending in `.mov` is
unsupported and, with the thumbnail resolving, yields exactly one image
clip at frame 0 of 150 frames. -/
theorem addVideoPoint_fallback_witness :
    isSupportedVideoFormat pointMov.videoUrl = false ∧
    envAllOk.fetchOk pointMov.videoThumbnail = true ∧
    addVideoPoint envAllOk pointMov =
      [Clip.imageClip "http://h/t.jpg" 0 150] :=
  ⟨by decide, by decide,
    (addVideoPoint_fallback envAllOk pointMov (Or.inl (by decide))).1 (by decide)⟩

/-- Claim C5: for every timeline whose success flag is false or whose
section sequence is empty, `processVideoData` fails immediately with the
structural error and no clip list is ever produced (zero insertions). -/
theorem processVideoData_invalid (env : ComposeEnv) (videoData : VideoData)
    (title : Option String) (freshId : String)
    (h : videoData.success = false ∨ videoData.data = []) :
    processVideoData env videoData title freshId = .error "Invalid video data" ∧
    ∀ clips, processVideoData env videoData title freshId ≠ .ok clips := by
  have hcond : (¬ videoData.success ∨ videoData.data.isEmpty : Prop) := by
    rcases h with h | h
    · exact Or.inl (by simp [h])
    · exact Or.inr (by simp [h])
  unfold processVideoData
  rw [if_pos hcond]
  exact ⟨rfl, fun clips hc => Except.noConfusion hc⟩

/-- Witness for `processVideoData_invalid`: a timeline with the success
flag cleared is rejected. -/
theorem processVideoData_invalid_witness :
    timelineFailed.success = false ∧
    processVideoData envAllOk timelineFailed (some "T") "id" =
      .error "Invalid video data" :=
  ⟨by decide,
    (processVideoData_invalid envAllOk timelineFailed (some "T") "id"
      (Or.inl (by decide))).1⟩

/-- Claim C6, counterexample: in a timeline whose first section ends at
5000 ms (frame 150) and whose second section has no points, the audio
clip of the second section is positioned at frame 0 — the derived section
start is 0, NOT the end of the previous section. -/
theorem processSection_no_points_counterexample :
    processVideoData envAllOk timelineTwoSections none "id" =
      .ok [Clip.videoClip "http://h/v.mp4" 0 150,
           Clip.audioClip "http://h/a.mp3" 0] ∧
    msToFrames 5000 = 150 ∧
    (0 : Nat) ≠ 150 := by
  refine ⟨by rfl, by decide, by decide⟩

/-- Claim C6 as amended: for every section with no points the derived
start and end times are both 0 (they are initialised to 0 and never
overwritten), so every clip such a section inserts is an audio clip
positioned at frame 0. -/
theorem processSection_no_points (env : ComposeEnv) (sect : VideoSection)
    (h : sect.points = []) :
    ∀ clip ∈ processSection env sect, ∃ url, clip = Clip.audioClip url 0 := by
  intro clip hclip
  unfold processSection sectionAudioClips at hclip
  rw [h] at hclip
  simp only [List.map_nil, List.flatten_nil, List.append_nil] at hclip
  cases haudio : sect.audioUrl with
  | none => rw [haudio] at hclip; simp at hclip
  | some url =>
    rw [haudio] at hclip
    by_cases hfmt : isSupportedAudioFormat url
    · by_cases hfetch : env.fetchOk url = true
      · simp [hfmt, hfetch] at hclip
        exact ⟨url, by simp [hclip, msToFrames, frameRate]⟩
      · simp [hfmt, hfetch] at hclip
    · simp [hfmt] at hclip

/-- Witness for `processSection_no_points`: the audio clip the pointless
section inserts sits at frame 0. -/
theorem processSection_no_points_witness :
    Clip.audioClip "http://h/a.mp3" 0 ∈ processSection envAllOk sectionNoPoints ∧
    ∃ url, Clip.audioClip "http://h/a.mp3" 0 = Clip.audioClip url 0 :=
  ⟨by decide,
    processSection_no_points envAllOk sectionNoPoints (by decide)
      (Clip.audioClip "http://h/a.mp3" 0) (by decide)⟩

/-- Claim C7: resolving a URL that is not yet cached performs exactly one
network fetch and stores the fetched bytes keyed by the original URL; a
second resolution of the same URL (under any world, even one where the
network would answer differently) returns the byte-identical cached data
with zero fetches and leaves the store unchanged. -/
theorem fetchMediaWithCache_idempotent (world world2 : FetchWorld)
    (store : MediaStore) (url : String) (kind kind2 : MediaKind)
    (bytes : List Nat)
    (hmiss : getMedia store url = none)
    (hnet : world.net url = some bytes) :
    (fetchMediaWithCache world store url kind).result = .ok bytes ∧
    (fetchMediaWithCache world store url kind).fetches = 1 ∧
    getMedia (fetchMediaWithCache world store url kind).store url = some bytes ∧
    (fetchMediaWithCache world2 (fetchMediaWithCache world store url kind).store
        url kind2).result = .ok bytes ∧
    (fetchMediaWithCache world2 (fetchMediaWithCache world store url kind).store
        url kind2).fetches = 0 ∧
    (fetchMediaWithCache world2 (fetchMediaWithCache world store url kind).store
        url kind2).store = (fetchMediaWithCache world store url kind).store := by
  have hstep : fetchMediaWithCache world store url kind =
      { result := .ok bytes
        store := storeMedia store url bytes kind world.now
        fetches := 1 } := by
    unfold fetchMediaWithCache
    rw [hmiss, hnet]
  have hhit : getMedia (storeMedia store url bytes kind world.now) url = some bytes := by
    unfold getMedia storeMedia
    simp [List.find?]
  refine ⟨by rw [hstep], by rw [hstep], by rw [hstep]; exact hhit, ?_, ?_, ?_⟩ <;>
    · rw [hstep]
      unfold fetchMediaWithCache
      rw [hhit]

/-- Witness for `fetchMediaWithCache_idempotent`: an empty cache, a
network answering three bytes. -/
theorem fetchMediaWithCache_idempotent_witness :
    getMedia ([] : MediaStore) "http://h/v.mp4" = none ∧
    (fetchMediaWithCache { net := fun _ => some [1, 2, 3], now := 9 } []
        "http://h/v.mp4" .video).result = .ok [1, 2, 3] ∧
    (fetchMediaWithCache { net := fun _ => none, now := 10 }
        (fetchMediaWithCache { net := fun _ => some [1, 2, 3], now := 9 } []
          "http://h/v.mp4" .video).store "http://h/v.mp4" .video).fetches = 0 :=
  ⟨by decide,
    (fetchMediaWithCache_idempotent { net := fun _ => some [1, 2, 3], now := 9 }
      { net := fun _ => none, now := 10 } [] "http://h/v.mp4" .video .video
      [1, 2, 3] (by decide) (by decide)).1,
    (fetchMediaWithCache_idempotent { net := fun _ => some [1, 2, 3], now := 9 }
      { net := fun _ => none, now := 10 } [] "http://h/v.mp4" .video .video
      [1, 2, 3] (by decide) (by decide)).2.2.2.2.1⟩

/-- The scan leaves the store exactly as it found it: none of the
scheduled migration writes ever commits. -/
lemma getAllVideosGo_store_unchanged (fresh : Nat → String) (now : Nat)
    (k : Nat) (store : List StoredVideo) :
    (getAllVideosGo fresh now k store).2 = store := by
  induction store generalizing k with
  | nil => rfl
  | cons head rest ih =>
    cases head with
    | current record => simp [getAllVideosGo, ih]
    | legacy id videoData title timestamp thumbnail => simp [getAllVideosGo, ih]

/-- Every legacy record in the store shows up in the scan result upgraded
under one of the freshly generated ids. -/
lemma getAllVideosGo_legacy_mem (fresh : Nat → String) (now : Nat)
    (k : Nat) (store : List StoredVideo) (id : Nat) (videoData : VideoData)
    (title : Option String) (timestamp : Option Nat) (thumbnail : Option String)
    (hmem : StoredVideo.legacy id videoData title timestamp thumbnail ∈ store) :
    ∃ j, upgradeLegacy (fresh j) now videoData title timestamp thumbnail ∈
      (getAllVideosGo fresh now k store).1 := by
  induction store generalizing k with
  | nil => simp at hmem
  | cons head rest ih =>
    cases head with
    | current record =>
      rcases List.mem_cons.mp hmem with h | h
      · exact absurd h (by simp)
      · obtain ⟨j, hj⟩ := ih k h
        exact ⟨j, by simp [getAllVideosGo, hj]⟩
    | legacy id2 videoData2 title2 timestamp2 thumbnail2 =>
      rcases List.mem_cons.mp hmem with h | h
      · obtain ⟨rfl, rfl, rfl, rfl, rfl⟩ : id2 = id ∧ videoData2 = videoData ∧
            title2 = title ∧ timestamp2 = timestamp ∧ thumbnail2 = thumbnail := by
          cases h; exact ⟨rfl, rfl, rfl, rfl, rfl⟩
        exact ⟨k, by simp [getAllVideosGo]⟩
      · obtain ⟨j, hj⟩ := ih (k + 1) h
        exact ⟨j, by simp [getAllVideosGo, hj]⟩

/-- Claim C8, the code at the failing input: a `getAllVideos` call on the
store holding the legacy record keyed 7 does return it upgraded under a
freshly generated unique id, but no migration write ever commits — the
scheduled `updateStore.delete(cursor.key)` carries the timestamp-index
cursor key, undefined once the timeout fires, so the delete throws into
the catch and the add never runs.  The store after the call (after ANY
call) is unchanged, the record keyed 7 is still in it, and a second call
encounters the legacy record again and hands out a DIFFERENT fresh id for
it instead of finding a migrated record. -/
theorem getAllVideos_legacy_survives :
    (∀ fresh now store, (getAllVideos fresh now store).2 = store) ∧
    (getAllVideos freshIds 5 storeWithLegacy).1 =
      [upgradeLegacy (freshIds 0) 5 timelineTwoSections (some "Old") none none] ∧
    StoredVideo.legacy 7 timelineTwoSections (some "Old") none none ∈
      (getAllVideos freshIds 5 storeWithLegacy).2 ∧
    ((getAllVideos freshIds 5 storeWithLegacy).2.map StoredVideo.legacyKey) =
      [some 7] ∧
    (getAllVideos (fun k => "video_other_" ++ toString k) 6
        ((getAllVideos freshIds 5 storeWithLegacy).2)).1 =
      [upgradeLegacy "video_other_0" 6 timelineTwoSections (some "Old") none none] ∧
    "video_other_0" ≠ freshIds 0 :=
  ⟨fun fresh now store => getAllVideosGo_store_unchanged fresh now 0 store,
    by decide, by decide, by decide, by decide, by decide⟩

/-- Claim C9, counterexample: when the first section has no points but a
later section does, the record written by the history store carries the
EMPTY thumbnail, not the thumbnail of the later section. -/
theorem storeVideoData_thumbnail_counterexample :
    (storeVideoData "id" 0 timelineLateThumb "T").thumbnail = "" ∧
    (timelineLateThumb.data.getD 1 sectionOnePoint).points.head? = some pointFive ∧
    pointFive.videoThumbnail = "http://h/t.jpg" ∧
    ("" : String) ≠ "http://h/t.jpg" := by
  refine ⟨by decide, by decide, by decide, by decide⟩

/-- Claim C9 as amended: the record written by the history store carries
as thumbnail the first thumbnail of the FIRST section when that section
has points, and the empty string otherwise — later sections are never
consulted. -/
theorem storeVideoData_thumbnail (freshId : String) (now : Nat)
    (videoData : VideoData) (title : String) :
    (storeVideoData freshId now videoData title).thumbnail =
      match videoData.data.head? with
      | some sect => ((sect.points.head?).map VideoPoint.videoThumbnail).getD ""
      | none => "" := by
  unfold storeVideoData extractThumbnail
  cases videoData.data with
  | nil => rfl
  | cons sect rest =>
    cases hp : sect.points with
    | nil => simp [hp]
    | cons point rest2 => simp [hp]

/-- Claim C10: a failing history-store write is caught inside
`processVideoData`: on a valid timeline the call still succeeds with every
section processed in order, and its outcome is identical to the outcome
under a committing write. -/
theorem processVideoData_storage_failure (fetch : String → Bool)
    (videoData : VideoData) (title : Option String) (freshId : String)
    (hs : videoData.success = true) (hd : videoData.data ≠ []) :
    processVideoData { fetchOk := fetch, storeOk := false } videoData title freshId =
      .ok ((videoData.data.map
        (processSection { fetchOk := fetch, storeOk := false })).flatten) ∧
    processVideoData { fetchOk := fetch, storeOk := false } videoData title freshId =
      processVideoData { fetchOk := fetch, storeOk := true } videoData title freshId := by
  have hcond : ¬ (¬ videoData.success ∨ videoData.data.isEmpty : Prop) := by
    intro hcon
    rcases hcon with h | h
    · exact h hs
    · exact hd (by simpa using h)
  constructor
  · unfold processVideoData
    rw [if_neg hcond]
  · rfl

/-- Witness for `processVideoData_storage_failure`: on the two-section
timeline the composition result is the same whether or not the history
write commits. -/
theorem processVideoData_storage_failure_witness :
    timelineTwoSections.success = true ∧
    timelineTwoSections.data ≠ [] ∧
    processVideoData { fetchOk := fun _ => true, storeOk := false }
        timelineTwoSections (some "T") "id" =
      processVideoData { fetchOk := fun _ => true, storeOk := true }
        timelineTwoSections (some "T") "id" :=
  ⟨by decide, by decide,
    (processVideoData_storage_failure (fun _ => true) timelineTwoSections
      (some "T") "id" (by decide) (by decide)).2⟩
